import Mathlib

/-!
Shallow embedding of `src/itrik_Surfers.py` (a single-file side-scrolling
arcade game) and proofs about it.

Conventions of the embedding:

* Python floats are modelled as rationals (`ℚ`); the game only adds,
  multiplies and divides small decimal constants, and none of the
  properties below depends on IEEE-754 rounding.
* Python `int(x)` applied to a float truncates toward zero: `pyInt`.
* `pygame.Rect` stores integer coordinates; modelled as `Rect` over `ℤ`.
* Rendering calls (`draw`, fonts, colors, surfaces) have no effect on the
  game state and are omitted, as are the fields that only feed them.
* The results of the `random.randint` calls made by the three spawners are
  passed in explicitly through a `SpawnChoices` record.
* The high-score file is modelled as an `Option String` when read (`none`
  models an exception from `open`/`read`) and as a `Store` recording the
  last written value and the number of writes performed.
-/

/-- WIDTH configuration constant (900). -/
def WIDTH : ℤ := 900

/-- HEIGHT configuration constant (500). -/
def HEIGHT : ℤ := 500

/-- FPS configuration constant (60). -/
def FPS : ℤ := 60

/-- GROUND_Y = HEIGHT - 90 = 410. -/
def GROUND_Y : ℤ := HEIGHT - 90

/-- PLAYER_X = 120. -/
def PLAYER_X : ℤ := 120

/-- Python `int()` applied to a float: truncation toward zero. -/
def pyInt (q : ℚ) : ℤ := if 0 ≤ q then ⌊q⌋ else ⌈q⌉

/-- Integer rectangle, as `pygame.Rect` (x, y, w, h). -/
structure Rect where
  x : ℤ
  y : ℤ
  w : ℤ
  h : ℤ
deriving DecidableEq

/-- Right edge of a rect (`rect.right = x + w`). -/
def Rect.right (r : Rect) : ℤ := r.x + r.w

/-- pygame `Rect.colliderect`: overlap test with strict inequalities on the
normalized edges; rects with zero width or height never collide. -/
def Rect.colliderect (a b : Rect) : Bool :=
  !(a.w == 0) && !(a.h == 0) && !(b.w == 0) && !(b.h == 0) &&
  decide (min a.x (a.x + a.w) < max b.x (b.x + b.w)) &&
  decide (min b.x (b.x + b.w) < max a.x (a.x + a.w)) &&
  decide (min a.y (a.y + a.h) < max b.y (b.y + b.h)) &&
  decide (min b.y (b.y + b.h) < max a.y (a.y + a.h))

/-- Player state (class `Player`); the render-only `color` field is
omitted. -/
structure Player where
  width : ℤ
  height : ℤ
  x : ℚ
  y : ℚ
  dy : ℚ
  gravity : ℚ
  jump_strength : ℚ
  double_jump_allowed : Bool
  on_ground : Bool
  rect : Rect
  shield : ℤ
deriving DecidableEq

/-- Player.__init__. -/
def Player.init : Player :=
  { width := 48, height := 64, x := (PLAYER_X : ℚ), y := ((GROUND_Y - 64 : ℤ) : ℚ),
    dy := 0, gravity := 9/10, jump_strength := -16,
    double_jump_allowed := true, on_ground := true,
    rect := { x := PLAYER_X, y := GROUND_Y - 64, w := 48, h := 64 },
    shield := 0 }

/-- Player.update: apply gravity, move, clamp to ground, sync the rect to
the (truncated) position, decrement the shield timer when positive. -/
def Player.update (p : Player) : Player :=
  let dy1 := p.dy + p.gravity
  let y1 := p.y + dy1
  let ground := ((GROUND_Y - p.height : ℤ) : ℚ)
  let p2 :=
    if ground ≤ y1 then
      { p with y := ground, dy := 0, on_ground := true, double_jump_allowed := true }
    else
      { p with y := y1, dy := dy1, on_ground := false }
  let p3 := { p2 with rect := { p2.rect with x := pyInt p2.x, y := pyInt p2.y } }
  if 0 < p3.shield then { p3 with shield := p3.shield - 1 } else p3

/-- Player.jump: ground jump, else double jump when still allowed, else a
no-op. -/
def Player.jump (p : Player) : Player :=
  if p.on_ground then
    { p with dy := p.jump_strength, on_ground := false, double_jump_allowed := true }
  else if p.double_jump_allowed then
    { p with dy := p.jump_strength * (9/10), double_jump_allowed := false }
  else p

/-- Obstacle (class `Obstacle`); `color` omitted. -/
structure Obstacle where
  rect : Rect
  speed : ℚ
  passed : Bool
deriving DecidableEq

/-- Obstacle.__init__(x, w, h, speed): rect = Rect(x, GROUND_Y - h, w, h). -/
def Obstacle.init (x w h : ℤ) (speed : ℚ) : Obstacle :=
  { rect := { x := x, y := GROUND_Y - h, w := w, h := h }, speed := speed,
    passed := false }

/-- Obstacle.update: `rect.x -= int(speed)`. -/
def Obstacle.update (ob : Obstacle) : Obstacle :=
  { ob with rect := { ob.rect with x := ob.rect.x - pyInt ob.speed } }

/-- Coin (class `Coin`). -/
structure Coin where
  r : ℤ
  x : ℤ
  y : ℤ
  speed : ℚ
  rect : Rect
  collected : Bool
deriving DecidableEq

/-- Coin.__init__(x, y, speed): r = 10, rect = Rect(x-r, y-r, 2r, 2r). -/
def Coin.init (x y : ℤ) (speed : ℚ) : Coin :=
  { r := 10, x := x, y := y, speed := speed,
    rect := { x := x - 10, y := y - 10, w := 20, h := 20 }, collected := false }

/-- Coin.update: `x -= int(speed); rect.topleft = (x - r, y - r)`. -/
def Coin.update (c : Coin) : Coin :=
  let x1 := c.x - pyInt c.speed
  { c with x := x1, rect := { c.rect with x := x1 - c.r, y := c.y - c.r } }

/-- PowerUp (class `PowerUp`). -/
structure PowerUp where
  x : ℤ
  y : ℤ
  speed : ℚ
  r : ℤ
  kind : String
  rect : Rect
deriving DecidableEq

/-- PowerUp.__init__(x, y, speed, kind): r = 14, rect = Rect(x-r, y-r, 2r, 2r). -/
def PowerUp.init (x y : ℤ) (speed : ℚ) (kind : String) : PowerUp :=
  { x := x, y := y, speed := speed, r := 14, kind := kind,
    rect := { x := x - 14, y := y - 14, w := 28, h := 28 } }

/-- PowerUp.update: `x -= int(speed); rect.topleft = (x - r, y - r)`. -/
def PowerUp.update (p : PowerUp) : PowerUp :=
  let x1 := p.x - pyInt p.speed
  { p with x := x1, rect := { p.rect with x := x1 - p.r, y := p.y - p.r } }

/-- One parallax layer (its surface is render-only and omitted): scroll
offset, speed factor and vertical placement. -/
structure Layer where
  x : ℤ
  speed : ℚ
  y : ℤ
deriving DecidableEq

/-- Per-layer part of Background.update: `x -= int(base*speed)`, wrapping
to 0 once the offset reaches -WIDTH. -/
def Layer.update (base : ℚ) (l : Layer) : Layer :=
  let x1 := l.x - pyInt (base * l.speed)
  { l with x := if x1 ≤ -WIDTH then 0 else x1 }

/-- Background: three layers (class `Background`). -/
structure Background where
  layers : List Layer
deriving DecidableEq

/-- Background.__init__: speeds 0.6 + i*0.4, y = i*(HEIGHT//6). -/
def Background.init : Background :=
  { layers := [{ x := 0, speed := 6/10, y := 0 },
               { x := 0, speed := 1, y := 83 },
               { x := 0, speed := 14/10, y := 166 }] }

/-- Background.update(base_speed). -/
def Background.update (base : ℚ) (b : Background) : Background :=
  { layers := b.layers.map (Layer.update base) }

/-- Results of the `random.randint` calls used by the three spawners:
ow∈[30,70], oh∈[40,100], ox∈[20,120] for obstacles; cx∈[30,200],
cy∈[GROUND_Y-180, GROUND_Y-40] for coins; px∈[200,600],
py∈[GROUND_Y-180, GROUND_Y-60] for power-ups. -/
structure SpawnChoices where
  ow : ℤ
  oh : ℤ
  ox : ℤ
  cx : ℤ
  cy : ℤ
  px : ℤ
  py : ℤ
deriving DecidableEq

/-- Digits of a Python int literal: at least one character, all ASCII
digits. -/
def digitsVal (l : List Char) : Option ℕ :=
  if l ≠ [] ∧ l.all Char.isDigit then
    some (l.foldl (fun n c => 10 * n + (c.toNat - 48)) 0)
  else none

/-- Python `str.strip()`: drop leading and trailing whitespace. -/
def pyStrip (s : String) : String :=
  ⟨((s.data.dropWhile Char.isWhitespace).reverse.dropWhile Char.isWhitespace).reverse⟩

/-- Python `int(s)` on an already stripped string: optional sign then
digits (underscore grouping is not modelled); `none` models a raised
ValueError. -/
def pyParseInt (s : String) : Option ℤ :=
  match s.data with
  | [] => none
  | c :: rest =>
    if c = '-' then (digitsVal rest).map (fun n => -(n : ℤ))
    else if c = '+' then (digitsVal rest).map (fun n => (n : ℤ))
    else (digitsVal (c :: rest)).map (fun n => (n : ℤ))

/-- load_highscore: `int(f.read().strip() or 0)` with every exception
mapped to 0; the argument is `none` when opening or reading the file
raises. -/
def load_highscore (contents : Option String) : ℤ :=
  match contents with
  | none => 0
  | some s =>
    let t := pyStrip s
    if t = "" then 0
    else match pyParseInt t with
      | some n => n
      | none => 0

/-- Session state (class `ItrikSurfers`). -/
structure ItrikSurfers where
  running : Bool
  playing : Bool
  player : Player
  background : Background
  scroll_speed : ℚ
  spawn_timer : ℤ
  coin_timer : ℤ
  power_timer : ℤ
  obstacles : List Obstacle
  coins : List Coin
  powerups : List PowerUp
  score : ℤ
  distance : ℚ
  highscore : ℤ
  game_over : Bool
  difficulty_increment : ℚ
deriving DecidableEq

/-- ItrikSurfers.__init__; the highscore field comes from load_highscore
applied to the file contents. -/
def ItrikSurfers.init (contents : Option String) : ItrikSurfers :=
  { running := true, playing := false, player := Player.init,
    background := Background.init, scroll_speed := 6,
    spawn_timer := 0, coin_timer := 0, power_timer := 0,
    obstacles := [], coins := [], powerups := [],
    score := 0, distance := 0, highscore := load_highscore contents,
    game_over := false, difficulty_increment := 5/10000 }

/-- ItrikSurfers.reset. -/
def ItrikSurfers.reset (g : ItrikSurfers) : ItrikSurfers :=
  { g with
    player := Player.init, obstacles := [], coins := [], powerups := [],
    score := 0, distance := 0, scroll_speed := 6,
    spawn_timer := 0, coin_timer := 0, power_timer := 0, game_over := false }

/-- ItrikSurfers.spawn_obstacle. -/
def ItrikSurfers.spawn_obstacle (r : SpawnChoices) (g : ItrikSurfers) : ItrikSurfers :=
  { g with obstacles :=
      g.obstacles ++ [Obstacle.init (WIDTH + r.ox) r.ow r.oh g.scroll_speed] }

/-- ItrikSurfers.spawn_coin. -/
def ItrikSurfers.spawn_coin (r : SpawnChoices) (g : ItrikSurfers) : ItrikSurfers :=
  { g with coins := g.coins ++ [Coin.init (WIDTH + r.cx) r.cy g.scroll_speed] }

/-- ItrikSurfers.spawn_powerup. -/
def ItrikSurfers.spawn_powerup (r : SpawnChoices) (g : ItrikSurfers) : ItrikSurfers :=
  { g with powerups :=
      g.powerups ++ [PowerUp.init (WIDTH + r.px) r.py g.scroll_speed ("shield")] }

/-- Lines 226-229 of update: speed increase, distance accumulation,
background scroll. -/
def ItrikSurfers.phaseSpeed (g : ItrikSurfers) : ItrikSurfers :=
  let sp := g.scroll_speed + g.difficulty_increment
  { g with
    scroll_speed := sp, distance := g.distance + sp / 10,
    background := g.background.update sp }

/-- Lines 231-245 of update: the three spawn timers. -/
def ItrikSurfers.phaseSpawns (r : SpawnChoices) (g : ItrikSurfers) : ItrikSurfers :=
  let g1 : ItrikSurfers :=
    if g.spawn_timer + 1 > max 18 (70 - pyInt (g.scroll_speed * 3)) then
      { (g.spawn_obstacle r) with spawn_timer := 0 }
    else { g with spawn_timer := g.spawn_timer + 1 }
  let g2 : ItrikSurfers :=
    if g1.coin_timer + 1 > 40 then { (g1.spawn_coin r) with coin_timer := 0 }
    else { g1 with coin_timer := g1.coin_timer + 1 }
  if g2.power_timer + 1 > 900 then { (g2.spawn_powerup r) with power_timer := 0 }
  else { g2 with power_timer := g2.power_timer + 1 }

/-- Line 248 of update: `self.player.update()`. -/
def ItrikSurfers.phasePlayer (g : ItrikSurfers) : ItrikSurfers :=
  { g with player := g.player.update }

/-- The moved obstacle seen by the loop body: the session writes its
current scroll speed into the obstacle, then the obstacle updates. -/
def moveOb (speed : ℚ) (ob : Obstacle) : Obstacle :=
  Obstacle.update { ob with speed := speed }

/-- Outcome of one iteration of the obstacle loop body (lines 251-271). -/
structure ObStep where
  ob : Obstacle
  offscreen : Bool
  collide : Bool
  hit : Bool
  removed : Bool
  sd : ℤ
deriving DecidableEq

/-- One iteration of the obstacle loop body: move, off-screen removal,
collision (game over when the shield is not active, obstacle destruction
when it is), and pass scoring. -/
def ItrikSurfers.stepObstacle (pl : Player) (speed : ℚ) (ob : Obstacle) : ObStep :=
  let moved := moveOb speed ob
  let offscreen := decide (moved.rect.right < -50)
  let collide := Rect.colliderect moved.rect pl.rect
  let hit := collide && decide (pl.shield ≤ 0)
  let removed := offscreen || (collide && decide (0 < pl.shield))
  let passNow := !moved.passed && decide ((moved.rect.right : ℚ) < pl.x)
  { ob := if passNow then { moved with passed := true } else moved,
    offscreen := offscreen, collide := collide, hit := hit,
    removed := removed, sd := if passNow then 5 else 0 }

/-- Surviving, updated obstacle, or `none` when the loop removed it. -/
def obstacleKeep (pl : Player) (speed : ℚ) (ob : Obstacle) : Option Obstacle :=
  let s := ItrikSurfers.stepObstacle pl speed ob
  if s.removed then none else some s.ob

/-- Whether some obstacle in the snapshot hits the unshielded player. -/
def obstaclesHit (pl : Player) (speed : ℚ) (obs : List Obstacle) : Bool :=
  obs.any (fun ob => (ItrikSurfers.stepObstacle pl speed ob).hit)

/-- Total pass-score awarded over the snapshot. -/
def obstaclesScore (pl : Player) (speed : ℚ) (obs : List Obstacle) : ℤ :=
  (obs.map (fun ob => (ItrikSurfers.stepObstacle pl speed ob).sd)).sum

/-- Lines 250-271 of update, the whole obstacle loop. The Python loop
iterates over a copy of the list and removes objects (compared by
identity) from the live list; every snapshot element is a distinct object
processed exactly once, so the net effect on the list is a filterMap of
the per-element outcome while the score and the two flags accumulate. -/
def ItrikSurfers.phaseObstacles (g : ItrikSurfers) : ItrikSurfers :=
  let hit := obstaclesHit g.player g.scroll_speed g.obstacles
  { g with
    obstacles := g.obstacles.filterMap (obstacleKeep g.player g.scroll_speed),
    score := g.score + obstaclesScore g.player g.scroll_speed g.obstacles,
    game_over := g.game_over || hit,
    playing := g.playing && !hit }

/-- Outcome of one iteration of the coin loop body (lines 274-285). -/
structure CoinStep where
  coin : Coin
  removed : Bool
  sd : ℤ
deriving DecidableEq

/-- One iteration of the coin loop body. -/
def ItrikSurfers.stepCoin (pl : Player) (speed : ℚ) (c : Coin) : CoinStep :=
  let moved := Coin.update { c with speed := speed }
  let offscreen := decide (moved.x < -50)
  let grab := Rect.colliderect moved.rect pl.rect && !moved.collected
  { coin := if grab then { moved with collected := true } else moved,
    removed := offscreen || grab,
    sd := if grab then 10 else 0 }

/-- Surviving, updated coin, or `none` when the loop removed it. -/
def coinKeep (pl : Player) (speed : ℚ) (c : Coin) : Option Coin :=
  let s := ItrikSurfers.stepCoin pl speed c
  if s.removed then none else some s.coin

/-- Total coin score awarded over the snapshot. -/
def coinsScore (pl : Player) (speed : ℚ) (cs : List Coin) : ℤ :=
  (cs.map (fun c => (ItrikSurfers.stepCoin pl speed c).sd)).sum

/-- Lines 273-285 of update, the whole coin loop (same snapshot argument
as for the obstacle loop). -/
def ItrikSurfers.phaseCoins (g : ItrikSurfers) : ItrikSurfers :=
  { g with
    coins := g.coins.filterMap (coinKeep g.player g.scroll_speed),
    score := g.score + coinsScore g.player g.scroll_speed g.coins }

/-- Outcome of one iteration of the power-up loop body (lines 288-299). -/
structure PowStep where
  pow : PowerUp
  collide : Bool
  removed : Bool
deriving DecidableEq

/-- One iteration of the power-up loop body. -/
def ItrikSurfers.stepPow (pl : Player) (speed : ℚ) (p : PowerUp) : PowStep :=
  let moved := PowerUp.update { p with speed := speed }
  let offscreen := decide (moved.x < -50)
  let collide := Rect.colliderect moved.rect pl.rect
  { pow := moved, collide := collide, removed := offscreen || collide }

/-- Surviving, updated power-up, or `none` when the loop removed it. -/
def powKeep (pl : Player) (speed : ℚ) (p : PowerUp) : Option PowerUp :=
  let s := ItrikSurfers.stepPow pl speed p
  if s.removed then none else some s.pow

/-- Shield value after the power-up loop: the only write in the loop is
`player.shield = FPS * 3`, performed for each colliding power-up of kind
shield, so the final value is `FPS * 3` when at least one exists and is
unchanged otherwise. -/
def powShield (pl : Player) (speed : ℚ) (ps : List PowerUp) : ℤ :=
  if ps.any (fun p => (ItrikSurfers.stepPow pl speed p).collide && (p.kind == "shield"))
  then FPS * 3 else pl.shield

/-- Lines 287-299 of update, the whole power-up loop. -/
def ItrikSurfers.phasePowerups (g : ItrikSurfers) : ItrikSurfers :=
  { g with
    powerups := g.powerups.filterMap (powKeep g.player g.scroll_speed),
    player := { g.player with shield := powShield g.player g.scroll_speed g.powerups } }

/-- Lines 301-302 of update: distance-based score bonus
`score += int(scroll_speed / 250)`. -/
def ItrikSurfers.phaseBonus (g : ItrikSurfers) : ItrikSurfers :=
  { g with score := g.score + pyInt (g.scroll_speed / 250) }

/-- ItrikSurfers.update (lines 222-302): a no-op unless playing, then the
phases in source order. -/
def ItrikSurfers.update (r : SpawnChoices) (g : ItrikSurfers) : ItrikSurfers :=
  if g.playing then
    ItrikSurfers.phaseBonus (ItrikSurfers.phasePowerups (ItrikSurfers.phaseCoins
      (ItrikSurfers.phaseObstacles (ItrikSurfers.phasePlayer
        (ItrikSurfers.phaseSpawns r (ItrikSurfers.phaseSpeed g))))))
  else g

/-- External high-score store: last stored value and number of writes. -/
structure Store where
  value : ℤ
  writes : ℕ
deriving DecidableEq

/-- ItrikSurfers.game_over_screen, state-relevant part (lines 356-360):
when score > highscore, update the highscore field and call
save_highscore(score); rendering is omitted. -/
def ItrikSurfers.game_over_screen (g : ItrikSurfers) (st : Store) :
    ItrikSurfers × Store :=
  if g.highscore < g.score then
    ({ g with highscore := g.score }, { value := g.score, writes := st.writes + 1 })
  else (g, st)

/-- One iteration of the main loop after event handling (lines 404-425):
the start screen and the pause overlay skip the update entirely; otherwise
the session updates when playing, and the game-over screen (which may
persist the high score) runs when game_over is set. -/
def frameTick (inStart paused : Bool) (r : SpawnChoices) (g : ItrikSurfers)
    (st : Store) : ItrikSurfers × Store :=
  if inStart then (g, st)
  else if paused then (g, st)
  else
    let g1 := if g.playing then g.update r else g
    if g1.game_over then g1.game_over_screen st else (g1, st)

/-- Player states reachable in a session: the constructor, physics
updates, jump key presses, and the shield-pickup write performed by the
power-up loop. -/
inductive Player.Reachable : Player → Prop
  | init : Player.Reachable Player.init
  | update {p : Player} : Player.Reachable p → Player.Reachable p.update
  | jump {p : Player} : Player.Reachable p → Player.Reachable p.jump
  | pickup {p : Player} : Player.Reachable p →
      Player.Reachable { p with shield := FPS * 3 }

/-- Session states reachable from program start: boot, ticks, whole main
loop iterations, and the key handlers (restart, start, jump, quit). -/
inductive ItrikSurfers.Reachable : ItrikSurfers → Prop
  | boot (c : Option String) : ItrikSurfers.Reachable (ItrikSurfers.init c)
  | tick (r : SpawnChoices) {g} : ItrikSurfers.Reachable g →
      ItrikSurfers.Reachable (g.update r)
  | frame (inStart paused : Bool) (r : SpawnChoices) (st : Store) {g} :
      ItrikSurfers.Reachable g →
      ItrikSurfers.Reachable (frameTick inStart paused r g st).1
  | reset {g} : ItrikSurfers.Reachable g → ItrikSurfers.Reachable g.reset
  | start {g} : ItrikSurfers.Reachable g →
      ItrikSurfers.Reachable { g with playing := true }
  | jumpKey {g} : ItrikSurfers.Reachable g →
      ItrikSurfers.Reachable { g with player := g.player.jump }
  | quit {g} : ItrikSurfers.Reachable g →
      ItrikSurfers.Reachable { g with running := false }

/-- Iterate the obstacle loop body over successive ticks for one obstacle
kept in play, accumulating the pass-score it earns. -/
def runObstacleTicks (pl : Player) : List ℚ → Obstacle → Obstacle × ℤ
  | [], ob => (ob, 0)
  | sp :: sps, ob =>
    let s := ItrikSurfers.stepObstacle pl sp ob
    let rest := runObstacleTicks pl sps s.ob
    (rest.1, s.sd + rest.2)

/-- Modelled from the spec's wording for entity movement: the spec says
each entity moves left by `round(currentScrollSpeed)` pixels per tick;
this is that spec-side rounding (round half up), to be compared with the
`int()` truncation the code performs. -/
def specRound (q : ℚ) : ℤ := ⌊q + 1/2⌋

/-! General evaluation and frame lemmas about the embedding. -/

theorem pyInt_intCast (z : ℤ) : pyInt (z : ℚ) = z := by
  unfold pyInt
  split <;> simp

theorem pyInt_eval (q : ℚ) (z : ℤ) (h0 : 0 ≤ q) (h1 : (z : ℚ) ≤ q)
    (h2 : q < z + 1) : pyInt q = z := by
  rw [pyInt, if_pos h0]
  exact Int.floor_eq_iff.mpr ⟨h1, by exact_mod_cast h2⟩

theorem moveOb_passed (sp : ℚ) (ob : Obstacle) : (moveOb sp ob).passed = ob.passed := rfl

theorem moveOb_speed (sp : ℚ) (ob : Obstacle) : (moveOb sp ob).speed = sp := rfl

theorem moveOb_rect_x (sp : ℚ) (ob : Obstacle) :
    (moveOb sp ob).rect.x = ob.rect.x - pyInt sp := rfl

theorem stepObstacle_hit (pl : Player) (sp : ℚ) (ob : Obstacle) :
    (ItrikSurfers.stepObstacle pl sp ob).hit =
      ((ItrikSurfers.stepObstacle pl sp ob).collide && decide (pl.shield ≤ 0)) := rfl

theorem stepObstacle_collide (pl : Player) (sp : ℚ) (ob : Obstacle) :
    (ItrikSurfers.stepObstacle pl sp ob).collide =
      Rect.colliderect (moveOb sp ob).rect pl.rect := rfl

theorem stepObstacle_removed (pl : Player) (sp : ℚ) (ob : Obstacle) :
    (ItrikSurfers.stepObstacle pl sp ob).removed =
      ((ItrikSurfers.stepObstacle pl sp ob).offscreen ||
        ((ItrikSurfers.stepObstacle pl sp ob).collide && decide (0 < pl.shield))) := rfl

theorem stepObstacle_sd (pl : Player) (sp : ℚ) (ob : Obstacle) :
    (ItrikSurfers.stepObstacle pl sp ob).sd =
      if ob.passed = false ∧ ((moveOb sp ob).rect.right : ℚ) < pl.x then 5 else 0 := by
  by_cases hp : ob.passed <;>
    by_cases hc : ((moveOb sp ob).rect.right : ℚ) < pl.x <;>
      simp [ItrikSurfers.stepObstacle, moveOb_passed, hp, hc]

theorem stepObstacle_passed (pl : Player) (sp : ℚ) (ob : Obstacle) :
    (ItrikSurfers.stepObstacle pl sp ob).ob.passed =
      (ob.passed || decide (((moveOb sp ob).rect.right : ℚ) < pl.x)) := by
  by_cases hp : ob.passed <;>
    by_cases hc : ((moveOb sp ob).rect.right : ℚ) < pl.x <;>
      simp [ItrikSurfers.stepObstacle, moveOb_passed, hp, hc]

theorem stepObstacle_ob_rect_x (pl : Player) (sp : ℚ) (ob : Obstacle) :
    (ItrikSurfers.stepObstacle pl sp ob).ob.rect.x = ob.rect.x - pyInt sp := by
  by_cases hp : ob.passed <;>
    by_cases hc : ((moveOb sp ob).rect.right : ℚ) < pl.x <;>
      simp [ItrikSurfers.stepObstacle, moveOb_passed, moveOb_rect_x, hp, hc]

theorem stepObstacle_ob_speed (pl : Player) (sp : ℚ) (ob : Obstacle) :
    (ItrikSurfers.stepObstacle pl sp ob).ob.speed = sp := by
  by_cases hp : ob.passed <;>
    by_cases hc : ((moveOb sp ob).rect.right : ℚ) < pl.x <;>
      simp [ItrikSurfers.stepObstacle, moveOb_passed, moveOb_speed, hp, hc]

theorem player_update_height (p : Player) : p.update.height = p.height := by
  simp only [Player.update]
  split_ifs <;> rfl

theorem player_update_y_le (p : Player) :
    p.update.y ≤ ((GROUND_Y - p.update.height : ℤ) : ℚ) := by
  rw [player_update_height]
  simp only [Player.update]
  split_ifs with h1 h2 h3 <;> simp only [] <;>
    first
      | exact le_refl _
      | exact le_of_lt (not_le.mp (by assumption))

theorem player_update_ground_iff (p : Player) :
    p.update.on_ground = true ↔ p.update.y = ((GROUND_Y - p.update.height : ℤ) : ℚ) := by
  rw [player_update_height]
  unfold Player.update
  dsimp only
  split_ifs with hg hs1 hs2 <;> dsimp only <;>
    first
      | exact ⟨fun hh => hh.elim, fun hEq => (hg (le_of_eq hEq.symm)).elim⟩
      | simp

theorem player_update_landing (p : Player)
    (h : ((GROUND_Y - p.height : ℤ) : ℚ) ≤ p.y + (p.dy + p.gravity)) :
    p.update.dy = 0 ∧ p.update.double_jump_allowed = true := by
  unfold Player.update
  dsimp only
  split_ifs <;> exact ⟨rfl, rfl⟩

theorem player_jump_y (p : Player) : p.jump.y = p.y := by
  unfold Player.jump
  split_ifs <;> rfl

theorem player_jump_height (p : Player) : p.jump.height = p.height := by
  unfold Player.jump
  split_ifs <;> rfl

theorem player_reachable_y {p : Player} (h : Player.Reachable p) :
    p.y ≤ ((GROUND_Y - p.height : ℤ) : ℚ) := by
  induction h with
  | init => simp [Player.init]
  | update h ih => exact player_update_y_le _
  | jump h ih => rw [player_jump_y, player_jump_height]; exact ih
  | pickup h ih => exact ih

/-- C2: the claim quantifies over every reachable player state, but right
after a grounded jump() (a reachable state) the player still sits exactly
at the ground clamp while the grounded flag has already been cleared, so
the claimed equivalence fails there: the claim as stated is false. -/
theorem claimC2_counterexample :
    Player.Reachable Player.init.jump ∧
    Player.init.jump.y = ((GROUND_Y - Player.init.jump.height : ℤ) : ℚ) ∧
    Player.init.jump.on_ground = false := by
  refine ⟨Player.Reachable.jump Player.Reachable.init, ?_, ?_⟩
  · simp [Player.jump, Player.init]
  · simp [Player.jump, Player.init]

/-- C2 (amended): at every reachable player state the vertical position
satisfies y ≤ groundY − playerHeight, and after every Player.update() call
additionally the position is at most the clamp, the grounded flag holds
iff the position equals the clamp exactly, and on an update that lands the
player the vertical velocity is reset to 0 and the double jump is
re-enabled. -/
theorem claimC2_ground_invariant (p : Player) :
    (Player.Reachable p → p.y ≤ ((GROUND_Y - p.height : ℤ) : ℚ)) ∧
    p.update.y ≤ ((GROUND_Y - p.update.height : ℤ) : ℚ) ∧
    (p.update.on_ground = true ↔ p.update.y = ((GROUND_Y - p.update.height : ℤ) : ℚ)) ∧
    (((GROUND_Y - p.height : ℤ) : ℚ) ≤ p.y + (p.dy + p.gravity) →
      p.update.dy = 0 ∧ p.update.double_jump_allowed = true) :=
  ⟨fun h => player_reachable_y h, player_update_y_le p,
    player_update_ground_iff p, player_update_landing p⟩

/-- C2 witness: the freshly constructed player is reachable and below the
clamp, and its first update (which lands it) zeroes dy and re-enables the
double jump. -/
theorem claimC2_witness :
    Player.init.y ≤ ((GROUND_Y - Player.init.height : ℤ) : ℚ) ∧
    Player.init.update.dy = 0 ∧ Player.init.update.double_jump_allowed = true := by
  have h := claimC2_ground_invariant Player.init
  have hl := h.2.2.2 (by norm_num [Player.init, GROUND_Y, HEIGHT])
  exact ⟨h.1 Player.Reachable.init, hl.1, hl.2⟩

/-- C3: Player.jump is a three-case function: grounded jump sets dy to
jumpStrength (-16), clears the grounded flag and re-enables the double
jump; airborne with the double jump still allowed sets dy to
jumpStrength * 0.9 and disables it; otherwise it is a no-op, so a third
jump call before landing changes nothing. -/
theorem claimC3_jump_cases (p : Player) :
    (Player.init.jump_strength = -16) ∧
    (p.on_ground = true →
      p.jump = { p with
                 dy := p.jump_strength, on_ground := false,
                 double_jump_allowed := true }) ∧
    (p.on_ground = false → p.double_jump_allowed = true →
      p.jump = { p with
                 dy := p.jump_strength * (9/10), double_jump_allowed := false }) ∧
    (p.on_ground = false → p.double_jump_allowed = false → p.jump = p) ∧
    (p.on_ground = true → p.jump.jump.jump = p.jump.jump) := by
  refine ⟨rfl, ?_, ?_, ?_, ?_⟩
  · intro h
    simp [Player.jump, h]
  · intro h1 h2
    simp [Player.jump, h1, h2]
  · intro h1 h2
    simp [Player.jump, h1, h2]
  · intro h
    have e1 : p.jump = { p with
        dy := p.jump_strength, on_ground := false,
        double_jump_allowed := true } := by simp [Player.jump, h]
    rw [e1]
    simp [Player.jump]

/-- C3 witness: from the grounded initial player, the first jump sets dy
to -16, and the third jump before landing is a no-op. -/
theorem claimC3_witness :
    Player.init.jump.dy = -16 ∧
    Player.init.jump.jump.jump = Player.init.jump.jump := by
  have h := claimC3_jump_cases Player.init
  constructor
  · rw [h.2.1 rfl]
    exact h.1
  · exact h.2.2.2.2 rfl

theorem runObstacleTicks_passed_mono (pl : Player) (sps : List ℚ) (ob : Obstacle)
    (h : ob.passed = true) : (runObstacleTicks pl sps ob).1.passed = true := by
  induction sps generalizing ob with
  | nil => exact h
  | cons sp sps ih =>
    simp only [runObstacleTicks]
    exact ih _ (by simp [stepObstacle_passed, h])

theorem runObstacleTicks_sd (pl : Player) (sps : List ℚ) (ob : Obstacle) :
    (runObstacleTicks pl sps ob).2 =
      if ob.passed = false ∧ (runObstacleTicks pl sps ob).1.passed = true then 5
      else 0 := by
  induction sps generalizing ob with
  | nil => by_cases h : ob.passed <;> simp [runObstacleTicks, h]
  | cons sp sps ih =>
    simp only [runObstacleTicks]
    by_cases hp : ob.passed
    · have hsd : (ItrikSurfers.stepObstacle pl sp ob).sd = 0 := by
        rw [stepObstacle_sd]
        simp [hp]
      have hpp : (ItrikSurfers.stepObstacle pl sp ob).ob.passed = true := by
        rw [stepObstacle_passed]
        simp [hp]
      rw [hsd, ih]
      simp [hp, hpp]
    · by_cases hc : ((moveOb sp ob).rect.right : ℚ) < pl.x
      · have hsd : (ItrikSurfers.stepObstacle pl sp ob).sd = 5 := by
          rw [stepObstacle_sd]
          simp [hp, hc]
        have hpp : (ItrikSurfers.stepObstacle pl sp ob).ob.passed = true := by
          rw [stepObstacle_passed]
          simp [hc]
        have hfin := runObstacleTicks_passed_mono pl sps _ hpp
        rw [hsd, ih]
        simp [hp, hpp, hfin]
      · have hsd : (ItrikSurfers.stepObstacle pl sp ob).sd = 0 := by
          rw [stepObstacle_sd]
          simp [hc]
        have hpp : (ItrikSurfers.stepObstacle pl sp ob).ob.passed = false := by
          rw [stepObstacle_passed]
          simp [hp, hc]
        rw [hsd, ih]
        simp [hp, hpp]

/-- C4: in one tick the obstacle loop awards exactly 5 points for an
obstacle iff its passed flag is still clear and its right edge, after
moving, is strictly left of the player's x; the passed flag is set exactly
at that moment; iterated over any sequence of ticks the obstacle earns 5
in total when its flag flips and 0 when it was already set, so the award
happens on the first crossing tick and never again; the loop adds the
per-obstacle awards to the session score. -/
theorem claimC4_pass_scoring (pl : Player) (sp : ℚ) (ob : Obstacle)
    (sps : List ℚ) (s : ItrikSurfers) :
    ((ItrikSurfers.stepObstacle pl sp ob).sd =
      if ob.passed = false ∧ ((moveOb sp ob).rect.right : ℚ) < pl.x then 5 else 0) ∧
    ((ItrikSurfers.stepObstacle pl sp ob).ob.passed =
      (ob.passed || decide (((moveOb sp ob).rect.right : ℚ) < pl.x))) ∧
    ((runObstacleTicks pl sps ob).2 =
      if ob.passed = false ∧ (runObstacleTicks pl sps ob).1.passed = true then 5
      else 0) ∧
    ((ItrikSurfers.phaseObstacles s).score =
      s.score + obstaclesScore s.player s.scroll_speed s.obstacles) :=
  ⟨stepObstacle_sd pl sp ob, stepObstacle_passed pl sp ob,
    runObstacleTicks_sd pl sps ob, rfl⟩

theorem phaseSpeed_scroll (g : ItrikSurfers) :
    (g.phaseSpeed).scroll_speed = g.scroll_speed + g.difficulty_increment := rfl

theorem phaseSpawns_scroll (r : SpawnChoices) (g : ItrikSurfers) :
    (g.phaseSpawns r).scroll_speed = g.scroll_speed := by
  unfold ItrikSurfers.phaseSpawns ItrikSurfers.spawn_obstacle ItrikSurfers.spawn_coin
    ItrikSurfers.spawn_powerup
  dsimp only
  split_ifs <;> rfl

theorem phaseSpawns_player (r : SpawnChoices) (g : ItrikSurfers) :
    (g.phaseSpawns r).player = g.player := by
  unfold ItrikSurfers.phaseSpawns ItrikSurfers.spawn_obstacle ItrikSurfers.spawn_coin
    ItrikSurfers.spawn_powerup
  dsimp only
  split_ifs <;> rfl

theorem update_scroll_of_playing (r : SpawnChoices) (g : ItrikSurfers)
    (hp : g.playing = true) :
    (g.update r).scroll_speed = g.scroll_speed + g.difficulty_increment := by
  simp only [ItrikSurfers.update, hp, if_true]
  show (ItrikSurfers.phaseSpawns r g.phaseSpeed).scroll_speed = _
  rw [phaseSpawns_scroll, phaseSpeed_scroll]

theorem update_of_not_playing (r : SpawnChoices) (g : ItrikSurfers)
    (hp : g.playing = false) : g.update r = g := by
  simp [ItrikSurfers.update, hp]

/-- C7: across one tick the scroll speed never decreases while the session
is playing (the update adds the nonnegative difficulty increment, and the
increment the constructor installs is nonnegative), the session update is
a no-op when not playing, and a whole main-loop iteration leaves the
scroll speed untouched when paused or when the game is over. -/
theorem claimC7_speed_monotone (r : SpawnChoices) (g : ItrikSurfers) (st : Store)
    (inStart paused : Bool) (c : Option String) :
    (g.playing = true → 0 ≤ g.difficulty_increment →
      g.scroll_speed ≤ (g.update r).scroll_speed) ∧
    (g.playing = false → g.update r = g) ∧
    ((frameTick inStart true r g st).1.scroll_speed = g.scroll_speed) ∧
    (g.playing = false →
      (frameTick inStart paused r g st).1.scroll_speed = g.scroll_speed) ∧
    (0 ≤ (ItrikSurfers.init c).difficulty_increment) := by
  refine ⟨?_, ?_, ?_, ?_, ?_⟩
  · intro hp hi
    rw [update_scroll_of_playing r g hp]
    exact le_add_of_nonneg_right hi
  · exact update_of_not_playing r g
  · unfold frameTick
    split_ifs <;> first | rfl | simp_all
  · intro hp
    unfold frameTick ItrikSurfers.game_over_screen
    simp only [hp]
    split_ifs <;> first | rfl | simp_all
  · norm_num [ItrikSurfers.init]

/-- C7 witness: a playing session does not lose speed over its first tick,
and a non-playing session is left exactly as it was. -/
theorem claimC7_witness :
    ({ ItrikSurfers.init none with playing := true } : ItrikSurfers).scroll_speed ≤
      (({ ItrikSurfers.init none with playing := true } : ItrikSurfers).update
        ⟨0, 0, 0, 0, 0, 0, 0⟩).scroll_speed ∧
    (ItrikSurfers.init none).update ⟨0, 0, 0, 0, 0, 0, 0⟩ = ItrikSurfers.init none := by
  constructor
  · exact (claimC7_speed_monotone ⟨0, 0, 0, 0, 0, 0, 0⟩
      { ItrikSurfers.init none with playing := true }
      ⟨0, 0⟩ false false none).1 rfl (by norm_num [ItrikSurfers.init])
  · exact (claimC7_speed_monotone ⟨0, 0, 0, 0, 0, 0, 0⟩ (ItrikSurfers.init none)
      ⟨0, 0⟩ false false none).2.1 rfl

/-- C9: a Playing-state tick is the phase chain ending in phaseBonus, and
phaseBonus adds exactly int(scroll_speed / 250) to the score; in
particular the bonus is 0 whenever the (nonnegative) scroll speed is
below 250. -/
theorem claimC9_speed_bonus (r : SpawnChoices) (g s : ItrikSurfers) :
    (g.update r = if g.playing then
        ItrikSurfers.phaseBonus (ItrikSurfers.phasePowerups (ItrikSurfers.phaseCoins
          (ItrikSurfers.phaseObstacles (ItrikSurfers.phasePlayer
            (ItrikSurfers.phaseSpawns r (ItrikSurfers.phaseSpeed g)))))) else g) ∧
    ((ItrikSurfers.phaseBonus s).score = s.score + pyInt (s.scroll_speed / 250)) ∧
    (0 ≤ s.scroll_speed → s.scroll_speed < 250 →
      pyInt (s.scroll_speed / 250) = 0) := by
  refine ⟨rfl, rfl, ?_⟩
  intro h0 h1
  refine pyInt_eval _ 0 (div_nonneg h0 (by norm_num)) ?_ ?_
  · push_cast
    exact div_nonneg h0 (by norm_num)
  · push_cast
    calc s.scroll_speed / 250 < 1 := (div_lt_one (by norm_num)).mpr h1
      _ ≤ 0 + 1 := by norm_num

/-- C9 witness: at the initial scroll speed 6.0 the bonus evaluates to 0. -/
theorem claimC9_witness : pyInt ((ItrikSurfers.init none).scroll_speed / 250) = 0 :=
  (claimC9_speed_bonus ⟨0, 0, 0, 0, 0, 0, 0⟩ (ItrikSurfers.init none)
    (ItrikSurfers.init none)).2.2
    (by norm_num [ItrikSurfers.init]) (by norm_num [ItrikSurfers.init])

/-- C8: the game-over screen writes the store exactly when the final score
strictly exceeds the stored high score, leaves everything unchanged on a
tie or lower score, and is idempotent, so redrawing the screen every frame
performs at most one write per game over; loading the high score yields 0
on missing, empty/whitespace or malformed contents without raising. -/
theorem claimC8_highscore (g : ItrikSurfers) (st : Store) (str : String) :
    (g.highscore < g.score →
      g.game_over_screen st =
        ({ g with highscore := g.score },
         { value := g.score, writes := st.writes + 1 })) ∧
    (g.score ≤ g.highscore → g.game_over_screen st = (g, st)) ∧
    ((g.game_over_screen st).1.game_over_screen (g.game_over_screen st).2 =
      g.game_over_screen st) ∧
    (load_highscore none = 0) ∧
    (pyStrip str = "" → load_highscore (some str) = 0) ∧
    (pyParseInt (pyStrip str) = none → load_highscore (some str) = 0) := by
  refine ⟨?_, ?_, ?_, rfl, ?_, ?_⟩
  · intro h
    simp [ItrikSurfers.game_over_screen, h]
  · intro h
    simp [ItrikSurfers.game_over_screen, not_lt.mpr h]
  · by_cases h : g.highscore < g.score
    · have e1 : g.game_over_screen st =
          ({ g with highscore := g.score },
           { value := g.score, writes := st.writes + 1 }) := by
        simp [ItrikSurfers.game_over_screen, h]
      rw [e1]
      simp [ItrikSurfers.game_over_screen]
    · have e1 : g.game_over_screen st = (g, st) := by
        simp [ItrikSurfers.game_over_screen, h]
      rw [e1]
      simp [ItrikSurfers.game_over_screen, h]
  · intro h
    simp [load_highscore, h]
  · intro h
    simp [load_highscore, h]

/-- C8 witness: score 10 against stored high score 3 performs exactly one
write of 10, and loading malformed contents yields 0. -/
theorem claimC8_witness :
    (({ ItrikSurfers.init none with score := 10, highscore := 3 } :
        ItrikSurfers).game_over_screen ⟨3, 0⟩) =
      ({ ItrikSurfers.init none with score := 10, highscore := 10 },
       { value := 10, writes := 1 }) ∧
    load_highscore (some ("abc")) = 0 := by
  constructor
  · exact (claimC8_highscore { ItrikSurfers.init none with score := 10, highscore := 3 }
      ⟨3, 0⟩ ("abc")).1 (by norm_num)
  · exact (claimC8_highscore (ItrikSurfers.init none) ⟨0, 0⟩ ("abc")).2.2.2.2.2 rfl

theorem player_update_x (p : Player) : p.update.x = p.x := by
  unfold Player.update
  dsimp only
  split_ifs <;> rfl

theorem player_update_rect_x (p : Player) : p.update.rect.x = pyInt p.x := by
  unfold Player.update
  dsimp only
  split_ifs <;> rfl

theorem player_jump_x (p : Player) : p.jump.x = p.x := by
  unfold Player.jump
  split_ifs <;> rfl

theorem player_jump_rect (p : Player) : p.jump.rect = p.rect := by
  unfold Player.jump
  split_ifs <;> rfl

theorem update_player_x (r : SpawnChoices) (g : ItrikSurfers) :
    (g.update r).player.x = g.player.x := by
  cases hpp : g.playing
  · rw [update_of_not_playing r g hpp]
  · simp only [ItrikSurfers.update, hpp, if_true]
    show ((ItrikSurfers.phaseSpawns r g.phaseSpeed).player.update).x = g.player.x
    rw [player_update_x, phaseSpawns_player]
    rfl

theorem update_player_rect_x (r : SpawnChoices) (g : ItrikSurfers)
    (hp : g.playing = true) :
    (g.update r).player.rect.x = pyInt g.player.x := by
  simp only [ItrikSurfers.update, hp, if_true]
  show ((ItrikSurfers.phaseSpawns r g.phaseSpeed).player.update).rect.x = _
  rw [player_update_rect_x, phaseSpawns_player]
  rfl

theorem update_player_rect_pres (r : SpawnChoices) (g : ItrikSurfers)
    (hx : g.player.x = (PLAYER_X : ℚ)) (hr : g.player.rect.x = PLAYER_X) :
    (g.update r).player.rect.x = PLAYER_X := by
  cases hpp : g.playing
  · rw [update_of_not_playing r g hpp]
    exact hr
  · rw [update_player_rect_x r g hpp, hx]
    exact pyInt_intCast PLAYER_X

theorem frameTick_player (inStart paused : Bool) (r : SpawnChoices)
    (g : ItrikSurfers) (st : Store) :
    (frameTick inStart paused r g st).1.player = g.player ∨
    (frameTick inStart paused r g st).1.player = (g.update r).player := by
  unfold frameTick ItrikSurfers.game_over_screen
  dsimp only
  split_ifs <;> first | exact Or.inl rfl | exact Or.inr rfl

theorem reachable_player_x {g : ItrikSurfers} (h : ItrikSurfers.Reachable g) :
    g.player.x = (PLAYER_X : ℚ) ∧ g.player.rect.x = PLAYER_X := by
  induction h with
  | boot c => exact ⟨rfl, rfl⟩
  | tick r hg ih =>
    exact ⟨by rw [update_player_x]; exact ih.1,
      update_player_rect_pres r _ ih.1 ih.2⟩
  | frame inStart paused r st hg ih =>
    rcases frameTick_player inStart paused r _ st with he | he
    · rw [he]
      exact ih
    · rw [he]
      exact ⟨by rw [update_player_x]; exact ih.1,
        update_player_rect_pres r _ ih.1 ih.2⟩
  | reset hg ih => exact ⟨rfl, rfl⟩
  | start hg ih => exact ih
  | jumpKey hg ih =>
    exact ⟨by rw [player_jump_x]; exact ih.1, by rw [player_jump_rect]; exact ih.2⟩
  | quit hg ih => exact ih

/-- C10: the player's horizontal position is the constant PLAYER_X = 120
for the entire session: it is 120 in every reachable session state (and so
is the collision rect's x), and no operation — Player.update, Player.jump
or a whole session update — changes the player's x coordinate. -/
theorem claimC10_player_x (g : ItrikSurfers) (p : Player) (r : SpawnChoices) :
    (ItrikSurfers.Reachable g →
      g.player.x = (PLAYER_X : ℚ) ∧ g.player.rect.x = PLAYER_X) ∧
    (p.update.x = p.x) ∧ (p.jump.x = p.x) ∧
    ((g.update r).player.x = g.player.x) ∧
    (Player.init.x = (PLAYER_X : ℚ)) :=
  ⟨fun h => reachable_player_x h, player_update_x p, player_jump_x p,
    update_player_x r g, rfl⟩

/-- C10 witness: the freshly booted session has its player at x = 120. -/
theorem claimC10_witness :
    (ItrikSurfers.init none).player.x = (PLAYER_X : ℚ) ∧
    (ItrikSurfers.init none).player.rect.x = PLAYER_X :=
  (claimC10_player_x (ItrikSurfers.init none) Player.init ⟨0, 0, 0, 0, 0, 0, 0⟩).1
    (ItrikSurfers.Reachable.boot none)

theorem stepObstacle_offscreen (pl : Player) (sp : ℚ) (ob : Obstacle) :
    (ItrikSurfers.stepObstacle pl sp ob).offscreen =
      decide ((moveOb sp ob).rect.right < -50) := rfl

theorem stepObstacle_hit_true (pl : Player) (sp : ℚ) (ob : Obstacle)
    (hcol : (ItrikSurfers.stepObstacle pl sp ob).collide = true)
    (hsh : pl.shield ≤ 0) : (ItrikSurfers.stepObstacle pl sp ob).hit = true := by
  rw [stepObstacle_hit, hcol]
  simp [hsh]

theorem stepObstacle_hit_false (pl : Player) (sp : ℚ) (ob : Obstacle)
    (hsh : 0 < pl.shield) : (ItrikSurfers.stepObstacle pl sp ob).hit = false := by
  rw [stepObstacle_hit]
  simp [not_le.mpr hsh]

theorem obstaclesHit_of_mem (pl : Player) (sp : ℚ) (obs : List Obstacle)
    (ob : Obstacle) (hm : ob ∈ obs)
    (hh : (ItrikSurfers.stepObstacle pl sp ob).hit = true) :
    obstaclesHit pl sp obs = true := by
  unfold obstaclesHit
  rw [List.any_eq_true]
  exact ⟨ob, hm, hh⟩

theorem obstaclesHit_false_of_shield (pl : Player) (sp : ℚ) (obs : List Obstacle)
    (hsh : 0 < pl.shield) : obstaclesHit pl sp obs = false := by
  unfold obstaclesHit
  rw [List.any_eq_false]
  intro x hx
  simp [stepObstacle_hit_false pl sp x hsh]

theorem obstacleKeep_none (pl : Player) (sp : ℚ) (ob : Obstacle)
    (hcol : (ItrikSurfers.stepObstacle pl sp ob).collide = true)
    (hsh : 0 < pl.shield) : obstacleKeep pl sp ob = none := by
  unfold obstacleKeep
  dsimp only
  rw [stepObstacle_removed, hcol]
  simp [hsh]

/-- C1: during a Playing-state tick (the phase chain on the right of the
first conjunct), when a moved obstacle's rectangle overlaps the player's
bounding box: with shield ≤ 0 the end-of-tick state has gameOver true and
playing false; with a positive shield the tick ends with playing still
true, gameOver unchanged, the colliding obstacle removed from the
obstacle collection, and the obstacle loop leaving the player (hence the
shield timer, already decremented once by Player.update this tick)
untouched. -/
theorem claimC1_obstacle_collision (r : SpawnChoices) (g s : ItrikSurfers)
    (ob : Obstacle) (pre post : List Obstacle)
    (hplay : s.playing = true)
    (hobs : s.obstacles = pre ++ ob :: post)
    (hcol : (ItrikSurfers.stepObstacle s.player s.scroll_speed ob).collide = true) :
    (g.update r = if g.playing then
        ItrikSurfers.phaseBonus (ItrikSurfers.phasePowerups (ItrikSurfers.phaseCoins
          (ItrikSurfers.phaseObstacles (ItrikSurfers.phasePlayer
            (ItrikSurfers.phaseSpawns r (ItrikSurfers.phaseSpeed g)))))) else g) ∧
    (s.player.shield ≤ 0 →
      (ItrikSurfers.phaseBonus (ItrikSurfers.phasePowerups (ItrikSurfers.phaseCoins
        (ItrikSurfers.phaseObstacles s)))).game_over = true ∧
      (ItrikSurfers.phaseBonus (ItrikSurfers.phasePowerups (ItrikSurfers.phaseCoins
        (ItrikSurfers.phaseObstacles s)))).playing = false) ∧
    (0 < s.player.shield →
      (ItrikSurfers.phaseBonus (ItrikSurfers.phasePowerups (ItrikSurfers.phaseCoins
        (ItrikSurfers.phaseObstacles s)))).playing = true ∧
      (ItrikSurfers.phaseBonus (ItrikSurfers.phasePowerups (ItrikSurfers.phaseCoins
        (ItrikSurfers.phaseObstacles s)))).game_over = s.game_over ∧
      obstacleKeep s.player s.scroll_speed ob = none ∧
      (ItrikSurfers.phaseObstacles s).obstacles =
        pre.filterMap (obstacleKeep s.player s.scroll_speed) ++
        post.filterMap (obstacleKeep s.player s.scroll_speed) ∧
      (ItrikSurfers.phaseObstacles s).player = s.player) := by
  refine ⟨rfl, ?_, ?_⟩
  · intro hsh
    have hhit : obstaclesHit s.player s.scroll_speed s.obstacles = true :=
      obstaclesHit_of_mem _ _ _ ob (by simp [hobs])
        (stepObstacle_hit_true _ _ _ hcol hsh)
    constructor
    · show (s.game_over || obstaclesHit s.player s.scroll_speed s.obstacles) = true
      rw [hhit]
      simp
    · show (s.playing && !obstaclesHit s.player s.scroll_speed s.obstacles) = false
      rw [hhit]
      simp
  · intro hsh
    have hhit : obstaclesHit s.player s.scroll_speed s.obstacles = false :=
      obstaclesHit_false_of_shield _ _ _ hsh
    refine ⟨?_, ?_, obstacleKeep_none _ _ _ hcol hsh, ?_, rfl⟩
    · show (s.playing && !obstaclesHit s.player s.scroll_speed s.obstacles) = true
      rw [hhit, hplay]
      rfl
    · show (s.game_over || obstaclesHit s.player s.scroll_speed s.obstacles) = s.game_over
      rw [hhit]
      simp
    · show s.obstacles.filterMap (obstacleKeep s.player s.scroll_speed) = _
      rw [hobs]
      simp [List.filterMap_append, List.filterMap_cons,
        obstacleKeep_none _ _ _ hcol hsh]

/-- Concrete obstacle overlapping the freshly updated player after moving
left by int(6.0) pixels. -/
def wOb1 : Obstacle :=
  { rect := { x := 130, y := 346, w := 50, h := 64 }, speed := 6, passed := false }

/-- Playing session whose only obstacle is wOb1 and whose player has no
shield. -/
def wS1 : ItrikSurfers :=
  { ItrikSurfers.init none with playing := true, obstacles := [wOb1] }

/-- C1 witness: the unshielded collision with wOb1 ends the game. -/
theorem claimC1_witness :
    (ItrikSurfers.phaseBonus (ItrikSurfers.phasePowerups (ItrikSurfers.phaseCoins
      (ItrikSurfers.phaseObstacles wS1)))).game_over = true ∧
    (ItrikSurfers.phaseBonus (ItrikSurfers.phasePowerups (ItrikSurfers.phaseCoins
      (ItrikSurfers.phaseObstacles wS1)))).playing = false := by
  have h6 : pyInt (6 : ℚ) = 6 :=
    pyInt_eval _ _ (by norm_num) (by norm_num) (by norm_num)
  have hcol : (ItrikSurfers.stepObstacle wS1.player wS1.scroll_speed wOb1).collide = true := by
    rw [stepObstacle_collide]
    show Rect.colliderect (moveOb (6 : ℚ) wOb1).rect Player.init.rect = true
    simp [moveOb, Obstacle.update, Rect.colliderect, wOb1, Player.init,
      PLAYER_X, GROUND_Y, HEIGHT, h6]
  exact (claimC1_obstacle_collision ⟨0, 0, 0, 0, 0, 0, 0⟩ wS1 wS1 wOb1 [] [] rfl rfl
    hcol).2.1 (by norm_num [wS1, ItrikSurfers.init, Player.init])

theorem stepPow_collide (pl : Player) (sp : ℚ) (p : PowerUp) :
    (ItrikSurfers.stepPow pl sp p).collide =
      Rect.colliderect (PowerUp.update { p with speed := sp }).rect pl.rect := rfl

theorem stepPow_removed (pl : Player) (sp : ℚ) (p : PowerUp) :
    (ItrikSurfers.stepPow pl sp p).removed =
      (decide ((PowerUp.update { p with speed := sp }).x < -50) ||
        (ItrikSurfers.stepPow pl sp p).collide) := rfl

theorem powKeep_none (pl : Player) (sp : ℚ) (p : PowerUp)
    (hcol : (ItrikSurfers.stepPow pl sp p).collide = true) :
    powKeep pl sp p = none := by
  unfold powKeep
  dsimp only
  rw [stepPow_removed, hcol]
  simp

theorem powShield_of_mem (pl : Player) (sp : ℚ) (ps : List PowerUp) (p : PowerUp)
    (hm : p ∈ ps) (hcol : (ItrikSurfers.stepPow pl sp p).collide = true)
    (hk : p.kind = "shield") : powShield pl sp ps = FPS * 3 := by
  have ha : (ps.any (fun q => (ItrikSurfers.stepPow pl sp q).collide &&
      (q.kind == "shield"))) = true :=
    List.any_eq_true.mpr ⟨p, hm, by simp [hcol, hk]⟩
  simp [powShield, ha]

/-- C5: when a moved power-up's rectangle overlaps the player's bounding
box during a Playing-state tick (whose trailing phases are phasePowerups
then phaseBonus): if its kind is shield the end-of-tick shield timer is
exactly FPS * 3 = 180 ticks, and the power-up is removed from its
collection regardless of kind. -/
theorem claimC5_shield_pickup (r : SpawnChoices) (g s : ItrikSurfers) (p : PowerUp)
    (pre post : List PowerUp)
    (hpow : s.powerups = pre ++ p :: post)
    (hcol : (ItrikSurfers.stepPow s.player s.scroll_speed p).collide = true) :
    (g.update r = if g.playing then
        ItrikSurfers.phaseBonus (ItrikSurfers.phasePowerups (ItrikSurfers.phaseCoins
          (ItrikSurfers.phaseObstacles (ItrikSurfers.phasePlayer
            (ItrikSurfers.phaseSpawns r (ItrikSurfers.phaseSpeed g)))))) else g) ∧
    (p.kind = "shield" →
      (ItrikSurfers.phaseBonus (ItrikSurfers.phasePowerups s)).player.shield =
        FPS * 3) ∧
    (FPS * 3 = 180) ∧
    (powKeep s.player s.scroll_speed p = none) ∧
    ((ItrikSurfers.phaseBonus (ItrikSurfers.phasePowerups s)).powerups =
      pre.filterMap (powKeep s.player s.scroll_speed) ++
      post.filterMap (powKeep s.player s.scroll_speed)) := by
  refine ⟨rfl, ?_, by norm_num [FPS], powKeep_none _ _ _ hcol, ?_⟩
  · intro hk
    show powShield s.player s.scroll_speed s.powerups = FPS * 3
    exact powShield_of_mem _ _ _ p (by simp [hpow]) hcol hk
  · show s.powerups.filterMap (powKeep s.player s.scroll_speed) = _
    rw [hpow]
    simp [List.filterMap_append, List.filterMap_cons, powKeep_none _ _ _ hcol]

/-- Concrete shield power-up that overlaps the player after moving left by
int(6.0) pixels. -/
def wPw5 : PowerUp :=
  { x := 150, y := 360, speed := 6, r := 14, kind := "shield",
    rect := { x := 136, y := 346, w := 28, h := 28 } }

/-- Playing session whose only power-up is wPw5. -/
def wS5 : ItrikSurfers :=
  { ItrikSurfers.init none with playing := true, powerups := [wPw5] }

/-- C5 witness: picking up wPw5 sets the shield to 180 ticks and empties
the power-up collection. -/
theorem claimC5_witness :
    (ItrikSurfers.phaseBonus (ItrikSurfers.phasePowerups wS5)).player.shield = 180 ∧
    (ItrikSurfers.phaseBonus (ItrikSurfers.phasePowerups wS5)).powerups = [] := by
  have h6 : pyInt (6 : ℚ) = 6 :=
    pyInt_eval _ _ (by norm_num) (by norm_num) (by norm_num)
  have hcol : (ItrikSurfers.stepPow wS5.player wS5.scroll_speed wPw5).collide = true := by
    rw [stepPow_collide]
    show Rect.colliderect (PowerUp.update { wPw5 with speed := (6 : ℚ) }).rect
      Player.init.rect = true
    simp [PowerUp.update, Rect.colliderect, wPw5, Player.init,
      PLAYER_X, GROUND_Y, HEIGHT, h6]
  have h := claimC5_shield_pickup ⟨0, 0, 0, 0, 0, 0, 0⟩ wS5 wS5 wPw5 [] [] rfl hcol
  constructor
  · rw [h.2.1 rfl, h.2.2.1]
  · rw [h.2.2.2.2]
    simp

theorem stepCoin_coin_x (pl : Player) (sp : ℚ) (c : Coin) :
    (ItrikSurfers.stepCoin pl sp c).coin.x = c.x - pyInt sp := by
  unfold ItrikSurfers.stepCoin
  dsimp only
  split_ifs <;> rfl

theorem stepCoin_coin_speed (pl : Player) (sp : ℚ) (c : Coin) :
    (ItrikSurfers.stepCoin pl sp c).coin.speed = sp := by
  unfold ItrikSurfers.stepCoin
  dsimp only
  split_ifs <;> rfl

theorem stepPow_pow_x (pl : Player) (sp : ℚ) (p : PowerUp) :
    (ItrikSurfers.stepPow pl sp p).pow.x = p.x - pyInt sp := rfl

theorem stepPow_pow_speed (pl : Player) (sp : ℚ) (p : PowerUp) :
    (ItrikSurfers.stepPow pl sp p).pow.speed = sp := rfl

theorem phaseObstacles_mem_speed (s : ItrikSurfers) :
    ∀ ob2 ∈ (ItrikSurfers.phaseObstacles s).obstacles,
      ob2.speed = s.scroll_speed := by
  intro ob2 hm
  rw [show (ItrikSurfers.phaseObstacles s).obstacles =
      s.obstacles.filterMap (obstacleKeep s.player s.scroll_speed) from rfl,
    List.mem_filterMap] at hm
  obtain ⟨a, ha, hk⟩ := hm
  unfold obstacleKeep at hk
  dsimp only at hk
  split_ifs at hk
  rw [← Option.some.inj hk]
  exact stepObstacle_ob_speed _ _ _

theorem phaseCoins_mem_speed (s : ItrikSurfers) :
    ∀ c2 ∈ (ItrikSurfers.phaseCoins s).coins, c2.speed = s.scroll_speed := by
  intro c2 hm
  rw [show (ItrikSurfers.phaseCoins s).coins =
      s.coins.filterMap (coinKeep s.player s.scroll_speed) from rfl,
    List.mem_filterMap] at hm
  obtain ⟨a, ha, hk⟩ := hm
  unfold coinKeep at hk
  dsimp only at hk
  split_ifs at hk
  rw [← Option.some.inj hk]
  exact stepCoin_coin_speed _ _ _

theorem phasePowerups_mem_speed (s : ItrikSurfers) :
    ∀ p2 ∈ (ItrikSurfers.phasePowerups s).powerups, p2.speed = s.scroll_speed := by
  intro p2 hm
  rw [show (ItrikSurfers.phasePowerups s).powerups =
      s.powerups.filterMap (powKeep s.player s.scroll_speed) from rfl,
    List.mem_filterMap] at hm
  obtain ⟨a, ha, hk⟩ := hm
  unfold powKeep at hk
  dsimp only at hk
  split_ifs at hk
  rw [← Option.some.inj hk]
  exact stepPow_pow_speed _ _ _

/-- Concrete obstacle carrying the speed 6.7, at which the truncated
movement of the code differs from the rounded movement of the spec. -/
def cexOb6 : Obstacle :=
  { rect := { x := 500, y := 340, w := 50, h := 70 }, speed := 67/10, passed := false }

/-- C6: the claim says entities move left by round(currentScrollSpeed)
pixels per tick, but Obstacle.update subtracts int(speed), which
truncates: at speed 6.7 the obstacle moves 6 pixels while round gives 7,
so the claim as stated is false. -/
theorem claimC6_counterexample :
    (Obstacle.update cexOb6).rect.x ≠ 500 - specRound (67/10) := by
  have h1 : pyInt (67/10 : ℚ) = 6 :=
    pyInt_eval _ _ (by norm_num) (by norm_num) (by norm_num)
  have h2 : specRound (67/10 : ℚ) = 7 := by
    rw [specRound]
    exact Int.floor_eq_iff.mpr (by norm_num)
  rw [show (Obstacle.update cexOb6).rect.x = 500 - pyInt (67/10 : ℚ) from rfl,
    h1, h2]
  norm_num

/-- C6 (amended): every obstacle, coin and power-up moves left by exactly
int(currentScrollSpeed) pixels per tick — Python int() truncation, not
rounding — and the session writes its current scroll speed into each
on-screen entity every tick before moving it, so every surviving entity
carries the session's current speed. -/
theorem claimC6_truncated_movement (pl : Player) (sp : ℚ) (ob : Obstacle)
    (c : Coin) (p : PowerUp) (s : ItrikSurfers) :
    ((Obstacle.update ob).rect.x = ob.rect.x - pyInt ob.speed) ∧
    ((Coin.update c).x = c.x - pyInt c.speed) ∧
    ((PowerUp.update p).x = p.x - pyInt p.speed) ∧
    ((ItrikSurfers.stepObstacle pl sp ob).ob.rect.x = ob.rect.x - pyInt sp) ∧
    ((ItrikSurfers.stepCoin pl sp c).coin.x = c.x - pyInt sp) ∧
    ((ItrikSurfers.stepPow pl sp p).pow.x = p.x - pyInt sp) ∧
    (∀ ob2 ∈ (ItrikSurfers.phaseObstacles s).obstacles,
      ob2.speed = s.scroll_speed) ∧
    (∀ c2 ∈ (ItrikSurfers.phaseCoins s).coins, c2.speed = s.scroll_speed) ∧
    (∀ p2 ∈ (ItrikSurfers.phasePowerups s).powerups, p2.speed = s.scroll_speed) :=
  ⟨rfl, rfl, rfl, stepObstacle_ob_rect_x pl sp ob, stepCoin_coin_x pl sp c,
    stepPow_pow_x pl sp p, phaseObstacles_mem_speed s, phaseCoins_mem_speed s,
    phasePowerups_mem_speed s⟩

/-- Obstacle with a stale speed field (1), far from the player, used to
show the session overwrites the stored speed each tick. -/
def wOb6 : Obstacle :=
  { rect := { x := 800, y := 340, w := 50, h := 70 }, speed := 1, passed := false }

/-- Playing session whose only obstacle is wOb6. -/
def wS6 : ItrikSurfers :=
  { ItrikSurfers.init none with playing := true, obstacles := [wOb6] }

/-- C6 witness: the obstacle surviving the tick carries the session's
current scroll speed (6), not its stale stored speed (1). -/
theorem claimC6_witness :
    (ItrikSurfers.stepObstacle wS6.player wS6.scroll_speed wOb6).ob.speed =
      wS6.scroll_speed := by
  have h6 : pyInt (6 : ℚ) = 6 :=
    pyInt_eval _ _ (by norm_num) (by norm_num) (by norm_num)
  have hrem : (ItrikSurfers.stepObstacle wS6.player wS6.scroll_speed wOb6).removed
      = false := by
    rw [stepObstacle_removed, stepObstacle_offscreen, stepObstacle_collide]
    show (decide ((moveOb (6 : ℚ) wOb6).rect.right < -50) ||
      (Rect.colliderect (moveOb (6 : ℚ) wOb6).rect Player.init.rect &&
        decide (0 < Player.init.shield))) = false
    simp [moveOb, Obstacle.update, Rect.right, Rect.colliderect, wOb6, Player.init,
      PLAYER_X, GROUND_Y, HEIGHT, h6]
  have hk : obstacleKeep wS6.player wS6.scroll_speed wOb6 =
      some (ItrikSurfers.stepObstacle wS6.player wS6.scroll_speed wOb6).ob := by
    unfold obstacleKeep
    dsimp only
    rw [hrem]
    rfl
  have hmem : (ItrikSurfers.stepObstacle wS6.player wS6.scroll_speed wOb6).ob ∈
      (ItrikSurfers.phaseObstacles wS6).obstacles := by
    show _ ∈ wS6.obstacles.filterMap (obstacleKeep wS6.player wS6.scroll_speed)
    rw [List.mem_filterMap]
    exact ⟨wOb6, show wOb6 ∈ ([wOb6] : List Obstacle) by simp, hk⟩
  exact (claimC6_truncated_movement wS6.player wS6.scroll_speed wOb6 (Coin.init 0 0 0)
    (PowerUp.init 0 0 0 ("shield")) wS6).2.2.2.2.2.2.1 _ hmem
